import Mathlib

/-!
Shallow embedding of the Bill-of-Lading kiosk sheet generator
(`BoL_Kiosk_App.py`): an uploaded spreadsheet becomes a `Table`,
the app validates its columns, lists selectable locker names,
filters rows by a selected name, and renders the first matching
row into a Word document plus a suggested file name.

Cells are modelled pandas-faithfully: a missing cell is `none`
(pandas `NaN`); a present cell holds a string or a number.
-/

namespace BoLKiosk

/-- A spreadsheet cell value: a string or a number (pandas object dtype). -/
inductive Value where
  | str : String → Value
  | int : Int → Value
deriving DecidableEq, Repr

/-- Python `str(v)` on a present cell value. -/
def Value.toStr : Value → String
  | .str s => s
  | .int n => toString n

/-- A cell: `none` models a missing value (pandas `NaN`). -/
abbrev Cell := Option Value

/-- A row: a mapping from column name to cell, as an association list. -/
abbrev Row := List (String × Cell)

/-- `row[c]`: the cell of row `r` in column `c` (missing column reads as a
missing value; validated access never hits that case). -/
def rowCell (r : Row) (c : String) : Cell :=
  (r.lookup c).join

/-- A table: the header (column names, `df.columns`) and the rows. -/
structure Table where
  header : List String
  rows : List Row
deriving DecidableEq, Repr

/-- `fmt` from the source: clean NaN to an empty string, else `str(val)`. -/
def fmt : Cell → String
  | none => ""
  | some v => v.toStr

/-- pandas `Series.astype(str)` applied to one cell: a missing value (float
`NaN`) is coerced to the literal string "nan"; a present value to `str(v)`. -/
def pdStr : Cell → String
  | none => "nan"
  | some v => v.toStr

/-- `REQUIRED_COLUMNS` from the source (Kiosk handled separately). -/
def REQUIRED_COLUMNS : List String :=
  [ "Property Name",
    "Store ID (NSA Unique ID)",
    "Address",
    "City",
    "St",
    "Zip",
    "Size",
    "Gen",
    "Indoor/ Outdoor",
    "Config",
    "Locker Name",
    "Contact Name",
    "Contact Phone #",
    "PO for Invoice" ]

/-- `missing = [c for c in REQUIRED_COLUMNS if c not in df.columns]`. -/
def missingColumns (df : Table) : List String :=
  REQUIRED_COLUMNS.filter (fun c => ¬ c ∈ df.header)

/-- Error text shown when required columns are missing. -/
def missingColumnsMessage (missing : List String) : String :=
  "The uploaded file is missing these columns: " ++ String.intercalate ", " missing

/-- Kiosk column resolution: the source tries `"Kiosk "` (with trailing
space) first, then `"Kiosk"`; `none` when neither header is present. -/
def resolveKioskCol (df : Table) : Option String :=
  if "Kiosk " ∈ df.header then some "Kiosk "
  else if "Kiosk" ∈ df.header then some "Kiosk"
  else none

/-- `df["Locker Name"]` for one row. -/
def lockerCell (r : Row) : Cell :=
  rowCell r "Locker Name"

/-- `df["Locker Name"].dropna().astype(str)`: missing cells are dropped,
remaining values coerced to string, in table order. -/
def lockerSeries (df : Table) : List String :=
  df.rows.filterMap (fun r => (lockerCell r).map Value.toStr)

/-- pandas `Series.unique()`: distinct values, first occurrence kept,
in order of first appearance (`seen` accumulates values already kept). -/
def pdUniqueAux : List String → List String → List String
  | [], _ => []
  | a :: l, seen =>
      if a ∈ seen then pdUniqueAux l seen
      else a :: pdUniqueAux l (a :: seen)

/-- pandas `Series.unique()` on a string series. -/
def pdUnique (l : List String) : List String :=
  pdUniqueAux l []

/-- `locker_options = sorted(locker_series.unique())`. -/
def locker_options (df : Table) : List String :=
  List.insertionSort (· ≤ ·) (pdUnique (lockerSeries df))

/-- `matching_rows = df[df["Locker Name"].astype(str) == selected_locker]`:
row filter by exact string equality after coercing every cell (missing
included) to string; original table order is preserved. -/
def select (df : Table) (name : String) : List Row :=
  df.rows.filter (fun r => pdStr (lockerCell r) == name)

/-- Column order of the property table's value row (table 1). -/
def table1Cols : List String :=
  [ "Property Name", "Store ID (NSA Unique ID)", "Address", "City", "St", "Zip" ]

/-- Column order of the locker/contact table's value row (table 2). -/
def table2Cols : List String :=
  [ "Size", "Gen", "Indoor/ Outdoor", "Config", "Locker Name",
    "Contact Name", "Contact Phone #", "PO for Invoice" ]

/-- The rendered Word document's logical content: header logo presence,
footer line, centered title, and the two fixed tables (header and value
rows). -/
structure RenderedDoc where
  headerLogo : Bool
  footerText : String
  title : String
  propertyHeading : String
  table1Header : List String
  table1Values : List String
  lockerHeading : String
  table2Header : List String
  table2Values : List String
deriving DecidableEq, Repr

/-- `render`: build the document from the selected row and the resolved
kiosk column. `logoExists` models `Path(LOGO_PATH).exists()`; `logoLoadOk`
models `add_picture` succeeding (its failure is swallowed by
`try/except`, only suppressing the image). The footer line is written
unconditionally in the source. -/
def render (row : Row) (kioskCol : String) (logoExists logoLoadOk : Bool) :
    RenderedDoc :=
  { headerLogo := logoExists && logoLoadOk
    footerText := "Piedmont Moving Systems • Amazon Locker Operations"
    title := fmt (rowCell row "Locker Name") ++ "  (Kiosk "
               ++ fmt (rowCell row kioskCol) ++ ")"
    propertyHeading := "Property Details"
    table1Header := table1Cols
    table1Values :=
      [ fmt (rowCell row "Property Name"),
        fmt (rowCell row "Store ID (NSA Unique ID)"),
        fmt (rowCell row "Address"),
        fmt (rowCell row "City"),
        fmt (rowCell row "St"),
        fmt (rowCell row "Zip") ]
    lockerHeading := "Locker Details"
    table2Header := table2Cols
    table2Values :=
      [ fmt (rowCell row "Size"),
        fmt (rowCell row "Gen"),
        fmt (rowCell row "Indoor/ Outdoor"),
        fmt (rowCell row "Config"),
        fmt (rowCell row "Locker Name"),
        fmt (rowCell row "Contact Name"),
        fmt (rowCell row "Contact Phone #"),
        fmt (rowCell row "PO for Invoice") ] }

/-- `file_name = f"{fmt(row['Locker Name'])}_Kiosk_{fmt(row[kiosk_col])}.docx"`. -/
def suggestedFileName (row : Row) (kioskCol : String) : String :=
  fmt (rowCell row "Locker Name") ++ "_Kiosk_" ++ fmt (rowCell row kioskCol) ++ ".docx"

/-- The saved `.docx` byte buffer, abstracted: the logical content plus the
timestamp metadata the docx library stamps into the package at save time. -/
structure DocFile where
  content : RenderedDoc
  timestampMeta : Nat
deriving DecidableEq, Repr

/-- `doc.save(buffer)` at wall-clock time `now`. -/
def renderFile (row : Row) (kioskCol : String) (logoExists logoLoadOk : Bool)
    (now : Nat) : DocFile :=
  { content := render row kioskCol logoExists logoLoadOk
    timestampMeta := now }

/-- The hard failures that stop the pipeline (`st.error` + `st.stop`). -/
inductive AppError where
  | missingRequired (missing : List String)
  | missingKioskColumn
  | noLockerNames
  | noRowFound
deriving DecidableEq, Repr

/-- The post-upload pipeline, in source order: required-column check,
kiosk-column resolution, locker-options emptiness check, row filter for
the selected name, empty-match check, then render of the first match. -/
def pipeline (df : Table) (name : String) (logoExists logoLoadOk : Bool)
    (now : Nat) : Except AppError (DocFile × String) :=
  match missingColumns df with
  | m :: ms => .error (.missingRequired (m :: ms))
  | [] =>
    match resolveKioskCol df with
    | none => .error .missingKioskColumn
    | some kioskCol =>
      if locker_options df = [] then .error .noLockerNames
      else
        match select df name with
        | [] => .error .noRowFound
        | row :: _ =>
            .ok (renderFile row kioskCol logoExists logoLoadOk now,
                 suggestedFileName row kioskCol)

/-! ### Helper lemmas -/

theorem mem_pdUniqueAux (l : List String) (seen : List String) (b : String) :
    b ∈ pdUniqueAux l seen ↔ b ∈ l ∧ b ∉ seen := by
  induction l generalizing seen with
  | nil => simp [pdUniqueAux]
  | cons a l ih =>
    by_cases h : a ∈ seen
    · simp only [pdUniqueAux, if_pos h, ih, List.mem_cons]
      constructor
      · rintro ⟨hb, hs⟩; exact ⟨Or.inr hb, hs⟩
      · rintro ⟨hb | hb, hs⟩
        · exact absurd (hb ▸ h) hs
        · exact ⟨hb, hs⟩
    · simp only [pdUniqueAux, if_neg h, List.mem_cons, ih]
      constructor
      · rintro (rfl | ⟨hb, hs⟩)
        · exact ⟨Or.inl rfl, h⟩
        · exact ⟨Or.inr hb, fun hb2 => hs (Or.inr hb2)⟩
      · rintro ⟨rfl | hb, hs⟩
        · exact Or.inl rfl
        · by_cases hba : b = a
          · exact Or.inl hba
          · exact Or.inr ⟨hb, by simp [hba, hs]⟩

theorem nodup_pdUniqueAux (l : List String) (seen : List String) :
    (pdUniqueAux l seen).Nodup := by
  induction l generalizing seen with
  | nil => simp [pdUniqueAux]
  | cons a l ih =>
    by_cases h : a ∈ seen
    · simpa [pdUniqueAux, h] using ih seen
    · simp only [pdUniqueAux, if_neg h, List.nodup_cons]
      refine ⟨fun hmem => ?_, ih _⟩
      rw [mem_pdUniqueAux] at hmem
      exact hmem.2 (List.mem_cons_self _ _)

theorem mem_pdUnique (l : List String) (b : String) : b ∈ pdUnique l ↔ b ∈ l := by
  simp [pdUnique, mem_pdUniqueAux]

theorem nodup_pdUnique (l : List String) : (pdUnique l).Nodup :=
  nodup_pdUniqueAux l []

theorem mem_lockerSeries (df : Table) (s : String) :
    s ∈ lockerSeries df ↔ ∃ r ∈ df.rows, ∃ v, lockerCell r = some v ∧ v.toStr = s := by
  simp [lockerSeries, List.mem_filterMap, Option.map_eq_some']

theorem mem_locker_options (df : Table) (s : String) :
    s ∈ locker_options df ↔
      ∃ r ∈ df.rows, ∃ v, lockerCell r = some v ∧ v.toStr = s := by
  rw [locker_options, (List.perm_insertionSort _ _).mem_iff, mem_pdUnique,
    mem_lockerSeries]

/-- Inversion of a successful pipeline run: the output document is the
render of the first row matching the selected name, on the resolved kiosk
column, and the file name is the suggested one for that row. -/
theorem pipeline_ok_inv (df : Table) (name : String) (le ll : Bool) (t : Nat)
    (doc : DocFile) (fn : String)
    (h : pipeline df name le ll t = .ok (doc, fn)) :
    ∃ k row rest, resolveKioskCol df = some k ∧ select df name = row :: rest ∧
      doc = renderFile row k le ll t ∧ fn = suggestedFileName row k := by
  unfold pipeline at h
  split at h
  · simp at h
  · split at h
    · simp at h
    · next k hk =>
      split at h
      · simp at h
      · split at h
        · simp at h
        · next row rest hsel =>
          simp only [Except.ok.injEq, Prod.mk.injEq] at h
          exact ⟨k, row, rest, hk, hsel, h.1.symm, h.2.symm⟩

/-! ### Concrete tables used to exercise the pipeline -/

/-- A full row over the 14 required columns plus a `"Kiosk"` column. -/
def mkRow (prop store addr city stt zip size gen inout cfg locker contact
    phone po kiosk : Cell) : Row :=
  [ ("Property Name", prop),
    ("Store ID (NSA Unique ID)", store),
    ("Address", addr),
    ("City", city),
    ("St", stt),
    ("Zip", zip),
    ("Size", size),
    ("Gen", gen),
    ("Indoor/ Outdoor", inout),
    ("Config", cfg),
    ("Locker Name", locker),
    ("Contact Name", contact),
    ("Contact Phone #", phone),
    ("PO for Invoice", po),
    ("Kiosk", kiosk) ]

/-- Scenario C: a table whose header lacks `Config` and `Zip`. -/
def scenarioCTable : Table :=
  ⟨[ "Property Name", "Store ID (NSA Unique ID)", "Address", "City", "St",
     "Size", "Gen", "Indoor/ Outdoor", "Locker Name", "Contact Name",
     "Contact Phone #", "PO for Invoice", "Kiosk" ], []⟩

/-- A row for a table carrying both `"Kiosk"` and `"Kiosk "` headers, with
different values in the two kiosk cells. -/
def bothKioskRow : Row :=
  mkRow none none none none none none none none none none
    (some (.str "A1")) none none none (some (.str "1"))
  ++ [("Kiosk ", some (.str "2"))]

/-- A table containing both the `"Kiosk"` and the `"Kiosk "` headers. -/
def bothKioskTable : Table :=
  ⟨REQUIRED_COLUMNS ++ ["Kiosk", "Kiosk "], [bothKioskRow]⟩

/-- A row whose `"Locker Name"` cell holds the literal empty string. -/
def emptyStringRow : Row :=
  mkRow none none none none none none none none none none
    (some (.str "")) none none none (some (.str "7"))

/-- A table whose single row has the empty string as its locker name. -/
def emptyStringTable : Table :=
  ⟨REQUIRED_COLUMNS ++ ["Kiosk"], [emptyStringRow]⟩

/-! ### Claim theorems -/

/-- C2. For every table missing one or more of the 14 required column
names, validation computes exactly the set of all missing required names
(not just the first), and the pipeline halts with that error, so no
document is produced. -/
theorem validate_reports_all_missing (df : Table)
    (h : missingColumns df ≠ []) :
    (∀ c, c ∈ missingColumns df ↔ c ∈ REQUIRED_COLUMNS ∧ c ∉ df.header) ∧
    ∀ name le ll t, pipeline df name le ll t
      = .error (.missingRequired (missingColumns df)) := by
  constructor
  · intro c; simp [missingColumns, List.mem_filter]
  · intro name le ll t
    unfold pipeline
    split
    · next m ms hm => rw [hm]
    · next hm => exact absurd hm h

theorem validate_reports_all_missing_witness :
    (∀ c, c ∈ missingColumns scenarioCTable ↔
        c ∈ REQUIRED_COLUMNS ∧ c ∉ scenarioCTable.header) ∧
    ∀ name le ll t, pipeline scenarioCTable name le ll t
      = .error (.missingRequired (missingColumns scenarioCTable)) :=
  validate_reports_all_missing scenarioCTable (by decide)

/-- C1, counterexample. On a table containing both `"Kiosk"` and
`"Kiosk "`, resolution does NOT pick the space-free `"Kiosk"` variant: it
picks `"Kiosk "`, and the suggested file name is built from the
`"Kiosk "` cell (value `"2"`), not the `"Kiosk"` cell (value `"1"`). -/
theorem kiosk_space_free_counterexample :
    ("Kiosk" ∈ bothKioskTable.header ∧ "Kiosk " ∈ bothKioskTable.header) ∧
    resolveKioskCol bothKioskTable ≠ some "Kiosk" ∧
    resolveKioskCol bothKioskTable = some "Kiosk " ∧
    (pipeline bothKioskTable "A1" false false 0).map Prod.snd
      = .ok "A1_Kiosk_2.docx" :=
  ⟨by decide, by decide, by decide, rfl⟩

/-- C1, amended. For every table that contains both a `"Kiosk"` and a
`"Kiosk "` column, kiosk-column resolution deterministically picks the
TRAILING-SPACE `"Kiosk "` variant, and that column's cell of the selected
row is what reaches the title and the suggested file name. -/
theorem kiosk_resolution_prefers_trailing_space (df : Table)
    (_h1 : "Kiosk" ∈ df.header) (h2 : "Kiosk " ∈ df.header) :
    resolveKioskCol df = some "Kiosk " ∧
    ∀ name le ll t doc fn, pipeline df name le ll t = .ok (doc, fn) →
      ∃ row rest, select df name = row :: rest ∧
        doc.content.title
          = fmt (rowCell row "Locker Name") ++ "  (Kiosk "
              ++ fmt (rowCell row "Kiosk ") ++ ")" ∧
        fn = fmt (rowCell row "Locker Name") ++ "_Kiosk_"
              ++ fmt (rowCell row "Kiosk ") ++ ".docx" := by
  have hres : resolveKioskCol df = some "Kiosk " := by
    simp [resolveKioskCol, h2]
  refine ⟨hres, ?_⟩
  intro name le ll t doc fn h
  obtain ⟨k, row, rest, hk, hsel, hdoc, hfn⟩ :=
    pipeline_ok_inv df name le ll t doc fn h
  rw [hres] at hk
  injection hk with hk2
  subst hk2
  subst hdoc
  subst hfn
  exact ⟨row, rest, hsel, rfl, rfl⟩

theorem kiosk_resolution_prefers_trailing_space_witness :
    resolveKioskCol bothKioskTable = some "Kiosk " ∧
    ∀ name le ll t doc fn,
      pipeline bothKioskTable name le ll t = .ok (doc, fn) →
      ∃ row rest, select bothKioskTable name = row :: rest ∧
        doc.content.title
          = fmt (rowCell row "Locker Name") ++ "  (Kiosk "
              ++ fmt (rowCell row "Kiosk ") ++ ")" ∧
        fn = fmt (rowCell row "Locker Name") ++ "_Kiosk_"
              ++ fmt (rowCell row "Kiosk ") ++ ".docx" :=
  kiosk_resolution_prefers_trailing_space bothKioskTable (by decide) (by decide)

/-- C3, counterexample. A `"Locker Name"` cell holding the literal empty
string is not dropped: the empty string appears among the selectable
locker options (the code only drops missing cells, via `dropna`). -/
theorem locker_options_empty_string_counterexample :
    "" ∈ locker_options emptyStringTable ∧
    ∀ r ∈ emptyStringTable.rows, lockerCell r ≠ none := by
  exact ⟨by decide, by decide⟩

/-- C3, amended. The selectable locker names contain no value from a
missing `"Locker Name"` cell and no duplicates, and are lexicographically
sorted after coercing the kept values to string; every element comes from
some row's present cell (so a cell holding the literal empty string does
contribute an empty-string option). -/
theorem locker_options_spec (df : Table) :
    (locker_options df).Nodup ∧
    List.Sorted (· ≤ ·) (locker_options df) ∧
    ∀ s, s ∈ locker_options df ↔
      ∃ r ∈ df.rows, ∃ v, lockerCell r = some v ∧ v.toStr = s := by
  refine ⟨?_, List.sorted_insertionSort _ _, mem_locker_options df⟩
  exact ((List.perm_insertionSort _ _).nodup_iff).mpr (nodup_pdUnique _)

/-- C5. `select` returns exactly the rows whose `"Locker Name"` cell,
coerced to string the pandas way, equals the name — case-sensitive,
untrimmed — as a sublist of the rows (original table order); with zero
matches it returns the empty list (it is a total function, no error). -/
theorem select_exact_match_spec (df : Table) (name : String) :
    (∀ r, r ∈ select df name ↔ r ∈ df.rows ∧ pdStr (lockerCell r) = name) ∧
    List.Sublist (select df name) df.rows ∧
    ((∀ r ∈ df.rows, pdStr (lockerCell r) ≠ name) → select df name = []) := by
  refine ⟨?_, List.filter_sublist _, ?_⟩
  · intro r; simp [select, List.mem_filter]
  · intro h
    simp only [select, List.filter_eq_nil_iff]
    intro r hr
    simpa using h r hr

/-- Scenario A: one fully populated row, locker `"A1"`, kiosk `"7"`. -/
def scenarioARow : Row :=
  mkRow (some (.str "Main Plaza")) (some (.str "S-100"))
    (some (.str "1 Main St")) (some (.str "San Jose")) (some (.str "CA"))
    (some (.str "95101")) (some (.str "L")) (some (.int 3))
    (some (.str "Indoor")) (some (.str "C1")) (some (.str "A1"))
    (some (.str "Pat Lee")) (some (.str "555-0100")) (some (.str "PO-1"))
    (some (.str "7"))

def scenarioATable : Table := ⟨REQUIRED_COLUMNS ++ ["Kiosk"], [scenarioARow]⟩

/-- Scenario B: two rows sharing locker name `"B2"`. -/
def scenarioBRow1 : Row :=
  mkRow (some (.str "North Mall")) none none none none none none none none
    none (some (.str "B2")) none none none (some (.str "4"))

def scenarioBRow2 : Row :=
  mkRow (some (.str "South Mall")) none none none none none none none none
    none (some (.str "B2")) none none none (some (.str "5"))

def scenarioBTable : Table :=
  ⟨REQUIRED_COLUMNS ++ ["Kiosk"], [scenarioBRow1, scenarioBRow2]⟩

/-- A row whose `"Locker Name"` cell is missing (NaN). -/
def missingLockerRow : Row :=
  mkRow (some (.str "West End")) none none none none none none none none
    none none none none none (some (.str "9"))

def missingLockerTable : Table :=
  ⟨REQUIRED_COLUMNS ++ ["Kiosk"], [missingLockerRow, scenarioARow]⟩

/-- C4. When several rows share the selected name, a successful pipeline
run renders from the FIRST matching row in original table order only. -/
theorem render_uses_first_match (df : Table) (name : String) (le ll : Bool)
    (t : Nat) (doc : DocFile) (fn : String) (r1 r2 : Row) (rest : List Row)
    (hsel : select df name = r1 :: r2 :: rest)
    (h : pipeline df name le ll t = .ok (doc, fn)) :
    ∃ k, resolveKioskCol df = some k ∧
      doc = renderFile r1 k le ll t ∧ fn = suggestedFileName r1 k := by
  obtain ⟨k, row, rest', hk, hsel', hdoc, hfn⟩ :=
    pipeline_ok_inv df name le ll t doc fn h
  rw [hsel] at hsel'
  injection hsel' with e1 e2
  subst e1
  exact ⟨k, hk, hdoc, hfn⟩

theorem render_uses_first_match_witness :
    ∃ k, resolveKioskCol scenarioBTable = some k ∧
      renderFile scenarioBRow1 "Kiosk" false false 0
        = renderFile scenarioBRow1 k false false 0 ∧
      "B2_Kiosk_4.docx" = suggestedFileName scenarioBRow1 k :=
  render_uses_first_match scenarioBTable "B2" false false 0
    (renderFile scenarioBRow1 "Kiosk" false false 0) "B2_Kiosk_4.docx"
    scenarioBRow1 scenarioBRow2 [] rfl rfl

/-- C6. Every value cell written into the document goes through the single
normalization `fmt`: the two value rows are pointwise `fmt` of the row's
cells, a missing cell renders as the empty string — never the literal
"nan" or "None" — and a present cell renders as its plain string form. -/
theorem cell_normalization (row : Row) (k : String) (le ll : Bool) :
    ((render row k le ll).table1Values
        = table1Cols.map (fun c => fmt (rowCell row c))) ∧
    ((render row k le ll).table2Values
        = table2Cols.map (fun c => fmt (rowCell row c))) ∧
    (∀ c, rowCell row c = none →
      fmt (rowCell row c) = "" ∧ fmt (rowCell row c) ≠ "nan" ∧
        fmt (rowCell row c) ≠ "None") ∧
    (∀ c v, rowCell row c = some v → fmt (rowCell row c) = v.toStr) := by
  refine ⟨rfl, rfl, ?_, ?_⟩
  · intro c hc
    rw [hc]
    exact ⟨rfl, by decide, by decide⟩
  · intro c v hc
    rw [hc]
    rfl

/-- C7. A successful pipeline run's document title is exactly
`<Locker Name>  (Kiosk <kiosk value>)` — two spaces before the opening
parenthesis — and the suggested file name is exactly
`<Locker Name>_Kiosk_<kiosk value>.docx`, both built from the first
matching row's formatted locker name and resolved kiosk-column value. -/
theorem title_and_filename_format (df : Table) (name : String) (le ll : Bool)
    (t : Nat) (doc : DocFile) (fn : String)
    (h : pipeline df name le ll t = .ok (doc, fn)) :
    ∃ k row rest, resolveKioskCol df = some k ∧
      select df name = row :: rest ∧
      doc.content.title
        = fmt (rowCell row "Locker Name") ++ "  (Kiosk "
            ++ fmt (rowCell row k) ++ ")" ∧
      fn = fmt (rowCell row "Locker Name") ++ "_Kiosk_"
            ++ fmt (rowCell row k) ++ ".docx" := by
  obtain ⟨k, row, rest, hk, hsel, hdoc, hfn⟩ :=
    pipeline_ok_inv df name le ll t doc fn h
  subst hdoc
  subst hfn
  exact ⟨k, row, rest, hk, hsel, rfl, rfl⟩

theorem title_and_filename_format_witness :
    ((renderFile scenarioARow "Kiosk" true true 0).content.title
        = "A1  (Kiosk 7)") ∧
    (∃ k row rest, resolveKioskCol scenarioATable = some k ∧
      select scenarioATable "A1" = row :: rest ∧
      (renderFile scenarioARow "Kiosk" true true 0).content.title
        = fmt (rowCell row "Locker Name") ++ "  (Kiosk "
            ++ fmt (rowCell row k) ++ ")" ∧
      "A1_Kiosk_7.docx" = fmt (rowCell row "Locker Name") ++ "_Kiosk_"
            ++ fmt (rowCell row k) ++ ".docx") :=
  ⟨rfl, title_and_filename_format scenarioATable "A1" true true 0
    (renderFile scenarioARow "Kiosk" true true 0) "A1_Kiosk_7.docx" rfl⟩

/-- C8, counterexample. With the logo asset absent, the footer branding
line is NOT suppressed: the rendered document still carries the fixed
branding line, while the header logo alone is dropped. -/
theorem footer_unconditional_counterexample :
    (render scenarioARow "Kiosk" false false).headerLogo = false ∧
    (render scenarioARow "Kiosk" false false).footerText
      = "Piedmont Moving Systems • Amazon Locker Operations" ∧
    (render scenarioARow "Kiosk" false false).footerText ≠ "" :=
  ⟨rfl, rfl, by decide⟩

/-- C8, amended. For every successful pipeline run, the header logo is
embedded exactly when the asset exists and the image load succeeds (a
load failure is swallowed, suppressing only the image, never an error);
the fixed footer branding line is written unconditionally. -/
theorem page_furniture_spec (df : Table) (name : String)
    (logoExists logoLoadOk : Bool) (t : Nat) (doc : DocFile) (fn : String)
    (h : pipeline df name logoExists logoLoadOk t = .ok (doc, fn)) :
    doc.content.headerLogo = (logoExists && logoLoadOk) ∧
    doc.content.footerText
      = "Piedmont Moving Systems • Amazon Locker Operations" := by
  obtain ⟨k, row, rest, hk, hsel, hdoc, hfn⟩ :=
    pipeline_ok_inv df name logoExists logoLoadOk t doc fn h
  subst hdoc
  exact ⟨rfl, rfl⟩

theorem page_furniture_spec_witness :
    (renderFile scenarioBRow1 "Kiosk" false true 0).content.headerLogo
      = (false && true) ∧
    (renderFile scenarioBRow1 "Kiosk" false true 0).content.footerText
      = "Piedmont Moving Systems • Amazon Locker Operations" :=
  page_furniture_spec scenarioBTable "B2" false true 0
    (renderFile scenarioBRow1 "Kiosk" false true 0) "B2_Kiosk_4.docx" rfl

/-- C9. Two pipeline runs on the same table, name and logo-asset
availability produce documents with identical logical content and the
same file name; only the save-time timestamp metadata (injected by the
document format, not by this logic) tracks the respective run times. -/
theorem render_two_run_determinism (df : Table) (name : String)
    (le ll : Bool) (t1 t2 : Nat) (doc1 doc2 : DocFile) (fn1 fn2 : String)
    (h1 : pipeline df name le ll t1 = .ok (doc1, fn1))
    (h2 : pipeline df name le ll t2 = .ok (doc2, fn2)) :
    doc1.content = doc2.content ∧ fn1 = fn2 ∧
    doc1.timestampMeta = t1 ∧ doc2.timestampMeta = t2 := by
  obtain ⟨k, row, rest, hk, hsel, hdoc, hfn⟩ :=
    pipeline_ok_inv df name le ll t1 doc1 fn1 h1
  obtain ⟨k', row', rest', hk', hsel', hdoc', hfn'⟩ :=
    pipeline_ok_inv df name le ll t2 doc2 fn2 h2
  rw [hk] at hk'
  injection hk' with ek
  subst ek
  rw [hsel] at hsel'
  injection hsel' with er erest
  subst er
  subst hdoc
  subst hdoc'
  subst hfn
  subst hfn'
  exact ⟨rfl, rfl, rfl, rfl⟩

theorem render_two_run_determinism_witness :
    (renderFile scenarioARow "Kiosk" true true 0).content
      = (renderFile scenarioARow "Kiosk" true true 1).content ∧
    ("A1_Kiosk_7.docx" : String) = "A1_Kiosk_7.docx" ∧
    (renderFile scenarioARow "Kiosk" true true 0).timestampMeta = 0 ∧
    (renderFile scenarioARow "Kiosk" true true 1).timestampMeta = 1 :=
  render_two_run_determinism scenarioATable "A1" true true 0 1
    (renderFile scenarioARow "Kiosk" true true 0)
    (renderFile scenarioARow "Kiosk" true true 1)
    "A1_Kiosk_7.docx" "A1_Kiosk_7.docx" rfl rfl

/-- Rows whose locker cell is missing are dropped by `dropna` and so
contribute nothing to the coerced locker-name series. -/
theorem lockerSeries_filter_present (rows : List Row) :
    (rows.filter (fun q => (lockerCell q).isSome)).filterMap
        (fun r => (lockerCell r).map Value.toStr)
      = rows.filterMap (fun r => (lockerCell r).map Value.toStr) := by
  induction rows with
  | nil => rfl
  | cons a l ih =>
    by_cases h : (lockerCell a).isSome
    · simp [List.filter_cons, h, List.filterMap_cons, ih]
    · have hn : lockerCell a = none := by
        cases hc : lockerCell a
        · rfl
        · rw [hc] at h; simp at h
      simp [List.filter_cons, hn, List.filterMap_cons, ih]

/-- C10. The two locker-name coercions differ: the options list drops
missing cells before coercing, while `select` coerces every row, turning
a missing cell into the literal string "nan". A row with a missing
`"Locker Name"` is therefore returned by `select` for the name "nan",
yet removing all missing-locker rows leaves the option list unchanged —
those rows never appear among the selectable options. -/
theorem missing_locker_nan_mismatch (df : Table) (r : Row)
    (hr : r ∈ df.rows) (hm : lockerCell r = none) :
    pdStr (lockerCell r) = "nan" ∧
    r ∈ select df "nan" ∧
    locker_options df
      = locker_options
          ⟨df.header, df.rows.filter (fun q => (lockerCell q).isSome)⟩ := by
  refine ⟨by rw [hm]; rfl, ?_, ?_⟩
  · rw [select, List.mem_filter]
    refine ⟨hr, ?_⟩
    rw [hm]
    rfl
  · unfold locker_options lockerSeries
    rw [lockerSeries_filter_present]

theorem missing_locker_nan_mismatch_witness :
    pdStr (lockerCell missingLockerRow) = "nan" ∧
    missingLockerRow ∈ select missingLockerTable "nan" ∧
    locker_options missingLockerTable
      = locker_options
          ⟨missingLockerTable.header,
           missingLockerTable.rows.filter (fun q => (lockerCell q).isSome)⟩ :=
  missing_locker_nan_mismatch missingLockerTable missingLockerRow
    (by decide) rfl

end BoLKiosk
